import Mathlib

/-!
Shallow embedding of the habit-tracking Telegram bot in `src/bot/main.py`
(class `HabitBot`, module-level `init_db`).

The persistent state is an SQLite database with four tables (see `init_db`):

* `habits (id INTEGER PRIMARY KEY AUTOINCREMENT, user_id INTEGER, name TEXT)`
* `habit_logs (user_id INTEGER, habit_id INTEGER, date TEXT, value INTEGER)`
  — no key constraint;
* `mood (user_id INTEGER, date TEXT, value INTEGER)` — no key constraint;
* `reminders (user_id INTEGER PRIMARY KEY, time TEXT)`.

Tables are modelled as lists of rows in insertion order (SQLite scans and
returns rows of these small tables in rowid order, which is insertion
order here; `fetchone` takes the first matching row, `UPDATE`/`DELETE`
affect every matching row, `INSERT` appends).  `AUTOINCREMENT` is modelled
by a monotone counter `nextId`.  Integers are `Int` where SQL arithmetic
occurs (`value` of `habit_logs`, updated as `1 - value`), `Nat` elsewhere.
Handlers are modelled as pure state transformers on the database, taking
the invoking user id and the handler arguments; messaging and keyboard
rendering are dropped, except that the chosen reply of `/remind` is
returned alongside the new state.
-/

namespace HabitTG

/-- Row of the `habits` table. -/
structure HabitRow where
  id : Nat
  user_id : Nat
  name : String
  deriving DecidableEq, Repr

/-- Row of the `habit_logs` table.  `value` is an SQL INTEGER that the code
updates as `1 - value`, hence `Int`. -/
structure LogRow where
  user_id : Nat
  habit_id : Nat
  date : String
  value : Int
  deriving DecidableEq, Repr

/-- Row of the `mood` table. -/
structure MoodRow where
  user_id : Nat
  date : String
  value : Nat
  deriving DecidableEq, Repr

/-- Row of the `reminders` table (`user_id` is its PRIMARY KEY). -/
structure ReminderRow where
  user_id : Nat
  time : String
  deriving DecidableEq, Repr

/-- The whole SQLite database created by `init_db`, plus the AUTOINCREMENT
counter backing `habits.id`. -/
structure DB where
  habits : List HabitRow
  habit_logs : List LogRow
  mood : List MoodRow
  reminders : List ReminderRow
  nextId : Nat
  deriving DecidableEq, Repr

/-- A database with all four tables empty. -/
def dbEmpty : DB := ⟨[], [], [], [], 1⟩

/-- The WHERE clause `user_id=? AND habit_id=? AND date=?` used by both
queries inside `toggle_habit` (and the keyboard query in `start`). -/
def keyMatch (uid hid : Nat) (d : String) (r : LogRow) : Bool :=
  r.user_id == uid && r.habit_id == hid && r.date == d

/-- `HabitBot.user_habits`: `SELECT id, name FROM habits WHERE user_id=?`,
returned as (id, name) pairs in table order. -/
def user_habits (db : DB) (uid : Nat) : List (Nat × String) :=
  (db.habits.filter (fun h => h.user_id == uid)).map (fun h => (h.id, h.name))

/-- The database effect of `HabitBot.start` (the “today view”): when
`user_habits` is empty it inserts the three default habits
`"🏃 Sport"`, `"💧 Water"`, `"📚 Study"` for the user (the Python `for`
loop over the literal list, unrolled; AUTOINCREMENT assigns consecutive
fresh ids); otherwise it writes nothing.  The keyboard it then renders is
read-only and omitted. -/
def start (db : DB) (uid : Nat) : DB :=
  if user_habits db uid = [] then
    { db with
        habits := db.habits ++
          [⟨db.nextId, uid, "🏃 Sport"⟩,
           ⟨db.nextId + 1, uid, "💧 Water"⟩,
           ⟨db.nextId + 2, uid, "📚 Study"⟩],
        nextId := db.nextId + 3 }
  else db

/-- `HabitBot.toggle_habit`: `SELECT value FROM habit_logs WHERE user_id=?
AND habit_id=? AND date=?` then `fetchone`; if a row was found, `UPDATE
habit_logs SET value=? ...` with `1 - row[0]` under the same WHERE clause
(hence every matching row receives that one new value); otherwise `INSERT
INTO habit_logs VALUES (?,?,?,1)`.  The `habits` table is never consulted. -/
def toggle_habit (db : DB) (uid hid : Nat) (d : String) : DB :=
  match db.habit_logs.find? (keyMatch uid hid d) with
  | some r =>
      { db with habit_logs :=
          db.habit_logs.map fun s =>
            if keyMatch uid hid d s then { s with value := 1 - r.value } else s }
  | none =>
      { db with habit_logs := db.habit_logs ++ [⟨uid, hid, d, 1⟩] }

/-- The stored completion value for a (user, habit, date) key, as the code
reads it back (`fetchone` on the same SELECT; an absent row counts as 0). -/
def logValue (db : DB) (uid hid : Nat) (d : String) : Int :=
  match db.habit_logs.find? (keyMatch uid hid d) with
  | some r => r.value
  | none => 0

/-- One toggle-button press: the key `toggle_habit` receives. -/
structure ToggleOp where
  uid : Nat
  hid : Nat
  date : String
  deriving DecidableEq, Repr

/-- A sequence of toggle-button presses applied in order. -/
def applyToggles (db : DB) : List ToggleOp → DB
  | [] => db
  | op :: rest => applyToggles (toggle_habit db op.uid op.hid op.date) rest

/-- Number of `habit_logs` rows stored for one (user, habit, date) key. -/
def countKey (l : List LogRow) (uid hid : Nat) (d : String) : Nat :=
  (l.filter (keyMatch uid hid d)).length

/-- `HabitBot.remove_habit` (REMOVING state of the customize conversation):
`DELETE FROM habits WHERE id=?` with the id parsed from the button payload.
The invoking user `uid` is taken from the callback but never reaches the
SQL, and no other table is touched. -/
def remove_habit (db : DB) (uid : Nat) (hid : Nat) : DB :=
  { db with habits := db.habits.filter (fun h => h.id != hid) }

/-- `HabitBot.edit_save` (EDITING_VALUE state): `UPDATE habits SET name=?
WHERE id=?` with the id stashed by `edit_select` and the new name from the
message text.  As in `remove_habit`, the invoking user `uid` never reaches
the SQL. -/
def edit_save (db : DB) (uid : Nat) (hid : Nat) (newName : String) : DB :=
  { db with habits :=
      db.habits.map fun h => if h.id == hid then { h with name := newName } else h }

/-- `HabitBot.save_mood`: `REPLACE INTO mood VALUES (?,?,?)`.  The `mood`
table declares no PRIMARY KEY and no UNIQUE constraint, so SQLite REPLACE
can never hit a uniqueness conflict and behaves as a plain INSERT: the new
row is appended and existing rows for the same (user, date) stay. -/
def save_mood (db : DB) (uid : Nat) (d : String) (val : Nat) : DB :=
  { db with mood := db.mood ++ [⟨uid, d, val⟩] }

/-- The check `re.match(r"\d{2}:\d{2}", s)` in `HabitBot.remind`:
`re.match` anchors at the start only, so it asks whether `s` BEGINS with
digit, digit, `:`, digit, digit — trailing characters are ignored, and
there is no semantic validation of hour or minute ranges.  (Python `\d`
also accepts non-ASCII Unicode digits; ASCII digits suffice here.) -/
def matchHHMM (s : String) : Bool :=
  match s.data with
  | a :: b :: c :: d :: e :: _ =>
      a.isDigit && b.isDigit && c == ':' && d.isDigit && e.isDigit
  | _ => false

/-- Follows the SPEC's words, not the code: “a strict two-digit:two-digit
pattern” read as the whole argument being exactly two digits, a colon and
two digits (a fully anchored match).  Kept separate from `matchHHMM`, the
code's actual prefix check, to compare the two. -/
def specStrictHHMM (s : String) : Bool :=
  match s.data with
  | [a, b, c, d, e] =>
      a.isDigit && b.isDigit && c == ':' && d.isDigit && e.isDigit
  | _ => false

/-- The reply `HabitBot.remind` sends: the usage line for missing
arguments, “Reminder off”, “Format HH:MM”, or “Reminder set ⏰”. -/
inductive RemindMsg where
  | usage
  | off_confirm
  | format_err
  | set_confirm
  deriving DecidableEq, Repr

/-- `HabitBot.remind`: with no argument, reply with the usage line and
write nothing.  If the first argument is `"off"`, `DELETE FROM reminders
WHERE user_id=?`.  Otherwise, if `re.match(r"\d{2}:\d{2}", args[0])`
fails, reply “Format HH:MM” and write nothing; if it succeeds, `REPLACE
INTO reminders VALUES (?,?)` — `user_id` is the PRIMARY KEY there, so
REPLACE is a true upsert: any old row of the user goes away and the new
one is inserted. -/
def remind (db : DB) (uid : Nat) (args : List String) : DB × RemindMsg :=
  match args with
  | [] => (db, .usage)
  | a :: _ =>
      if a == "off" then
        ({ db with reminders := db.reminders.filter (fun r => r.user_id != uid) },
         .off_confirm)
      else if matchHHMM a then
        ({ db with reminders :=
             db.reminders.filter (fun r => r.user_id != uid) ++ [⟨uid, a⟩] },
         .set_confirm)
      else
        (db, .format_err)

/-- One tick of the job-queue poller `HabitBot.send_reminders`: it reads
every row of `reminders` in order and sends the reminder message to
`user_id` exactly when the stored `time` string equals the current
wall-clock string `now` (`datetime.now().strftime` of `"%H:%M"`).  The
result lists the recipients of this tick in table order. -/
def send_reminders (db : DB) (now : String) : List Nat :=
  (db.reminders.filter (fun r => r.time == now)).map (fun r => r.user_id)

/-- A user owning one habit already (user 1, habit id 1 named "X"). -/
def dbOneHabit : DB := ⟨[⟨1, 1, "X"⟩], [], [], [], 2⟩

/-- Two users: user 2 owns habit id 7 named "Gym"; user 1 owns nothing. -/
def dbTwoUsers : DB := ⟨[⟨7, 2, "Gym"⟩], [], [], [], 8⟩

/-! ## Helper lemmas -/

/-- Rewriting only the `value` field leaves the WHERE clause's verdict
unchanged. -/
lemma keyMatch_update (uid hid : Nat) (d : String) (s : LogRow) (v : Int) :
    keyMatch uid hid d { s with value := v } = keyMatch uid hid d s := rfl

/-- The row-updating function of `toggle_habit`'s UPDATE branch preserves
the verdict of any WHERE clause of `keyMatch` shape. -/
lemma keyMatch_toggle_fun (uid hid u h : Nat) (d dd : String) (v : Int)
    (s : LogRow) :
    keyMatch u h dd (if keyMatch uid hid d s then { s with value := v } else s)
      = keyMatch u h dd s := by
  by_cases hk : keyMatch uid hid d s <;> simp [hk, keyMatch_update]

/-- The inserted row satisfies its own WHERE clause. -/
lemma keyMatch_new (uid hid : Nat) (d : String) :
    keyMatch uid hid d ⟨uid, hid, d, 1⟩ = true := by
  simp [keyMatch]

/-- Reading back (`fetchone` semantics) after one toggle always yields the
flipped value: `1 - old`, with an absent row reading as 0. -/
lemma logValue_toggle (db : DB) (uid hid : Nat) (d : String) :
    logValue (toggle_habit db uid hid d) uid hid d
      = 1 - logValue db uid hid d := by
  unfold logValue toggle_habit
  cases hf : db.habit_logs.find? (keyMatch uid hid d) with
  | none =>
      simp [List.find?_append, hf, keyMatch_new]
  | some r =>
      have hp : (keyMatch uid hid d) ∘
          (fun s => if keyMatch uid hid d s then { s with value := 1 - r.value } else s)
            = keyMatch uid hid d := by
        funext s; exact keyMatch_toggle_fun uid hid uid hid d d (1 - r.value) s
      have hkr : keyMatch uid hid d r = true := List.find?_some hf
      simp [List.find?_map, hp, hf, hkr]

/-- One toggle preserves the per-key row-count bound together with the
0-or-1 range of every stored `value`. -/
lemma toggle_inv (db : DB) (uid hid : Nat) (d : String)
    (hc : ∀ u h dd, countKey db.habit_logs u h dd ≤ 1)
    (hv : ∀ r ∈ db.habit_logs, r.value = 0 ∨ r.value = 1) :
    (∀ u h dd, countKey (toggle_habit db uid hid d).habit_logs u h dd ≤ 1)
    ∧ (∀ r ∈ (toggle_habit db uid hid d).habit_logs, r.value = 0 ∨ r.value = 1) := by
  unfold toggle_habit
  cases hf : db.habit_logs.find? (keyMatch uid hid d) with
  | some r =>
      have hrmem : r ∈ db.habit_logs := List.mem_of_find?_eq_some hf
      constructor
      · intro u h dd
        unfold countKey
        have hp : (keyMatch u h dd) ∘
            (fun s => if keyMatch uid hid d s then { s with value := 1 - r.value } else s)
              = keyMatch u h dd := by
          funext s; exact keyMatch_toggle_fun uid hid u h d dd (1 - r.value) s
        simp only [List.filter_map, hp, List.length_map]
        exact hc u h dd
      · intro t ht
        simp only [List.mem_map] at ht
        obtain ⟨s, hs, hts⟩ := ht
        by_cases hk : keyMatch uid hid d s
        · rw [if_pos hk] at hts
          rcases hv r hrmem with h0 | h1
          · right; rw [← hts, h0]; simp
          · left; rw [← hts, h1]; simp
        · rw [if_neg hk] at hts
          rw [← hts]; exact hv s hs
  | none =>
      have hnone : ∀ x ∈ db.habit_logs, ¬ keyMatch uid hid d x :=
        List.find?_eq_none.mp hf
      constructor
      · intro u h dd
        unfold countKey
        rw [List.filter_append]
        by_cases hk : keyMatch u h dd ⟨uid, hid, d, 1⟩
        · have hkey : (uid = u ∧ hid = h) ∧ d = dd := by
            simpa [keyMatch] using hk
          obtain ⟨⟨rfl, rfl⟩, rfl⟩ := hkey
          have hfe : db.habit_logs.filter (keyMatch uid hid d) = [] :=
            List.filter_eq_nil_iff.mpr hnone
          simp [hfe, hk]
        · simp [hk]
          exact hc u h dd
      · intro t ht
        rcases List.mem_append.mp ht with hl | hr
        · exact hv t hl
        · right
          have : t = (⟨uid, hid, d, 1⟩ : LogRow) := by simpa using hr
          rw [this]

/-- The invariant of `toggle_inv` carries through any toggle sequence. -/
lemma applyToggles_inv (ops : List ToggleOp) (db : DB)
    (hc : ∀ u h dd, countKey db.habit_logs u h dd ≤ 1)
    (hv : ∀ r ∈ db.habit_logs, r.value = 0 ∨ r.value = 1) :
    (∀ u h dd, countKey (applyToggles db ops).habit_logs u h dd ≤ 1)
    ∧ (∀ r ∈ (applyToggles db ops).habit_logs, r.value = 0 ∨ r.value = 1) := by
  induction ops generalizing db with
  | nil => exact ⟨hc, hv⟩
  | cons op rest ih =>
      obtain ⟨hc2, hv2⟩ := toggle_inv db op.uid op.hid op.date hc hv
      exact ih (toggle_habit db op.uid op.hid op.date) hc2 hv2

/-- Notification count of one user on one tick, as a list fact. -/
lemma send_count_aux (l : List ReminderRow) (now : String) (uid : Nat) :
    (((l.filter (fun r => r.time == now)).map (fun r => r.user_id)).filter
        (fun u => u == uid)).length
      = (l.filter (fun r => r.user_id == uid && r.time == now)).length := by
  induction l with
  | nil => rfl
  | cons r t ih =>
      by_cases h1 : r.time = now <;> by_cases h2 : r.user_id = uid <;>
        simp [List.filter_cons, h1, h2, ih]

/-- Membership in the notification list of one tick, as a list fact. -/
lemma send_mem_aux (l : List ReminderRow) (now : String) (uid : Nat) :
    ((l.filter (fun r => r.time == now)).map (fun r => r.user_id)).any
        (fun u => u == uid)
      = l.any (fun r => r.user_id == uid && r.time == now) := by
  induction l with
  | nil => rfl
  | cons r t ih =>
      by_cases h1 : r.time = now <;> by_cases h2 : r.user_id = uid <;>
        simp [List.filter_cons, h1, h2, ih]

/-! ## Claim theorems -/

/-- Claim C1 (code bug witnessed): the spec demands at most one `mood` row
per (user, date) with last-write-wins, and `save_mood` does use `REPLACE
INTO`, but the `mood` table has no PRIMARY KEY or UNIQUE constraint, so
REPLACE degenerates to INSERT: pressing mood 5 and then mood 7 on the same
date leaves TWO rows for (user 1, "2024-05-01") — both values kept. -/
theorem mood_duplicate_rows :
    ((save_mood (save_mood dbEmpty 1 "2024-05-01" 5) 1 "2024-05-01" 7).mood.filter
        (fun r => r.user_id == 1 && r.date == "2024-05-01")).length = 2
    ∧ (save_mood (save_mood dbEmpty 1 "2024-05-01" 5) 1 "2024-05-01" 7).mood
        = [⟨1, "2024-05-01", 5⟩, ⟨1, "2024-05-01", 7⟩] := by
  decide

/-- Claim C2 (counterexample): "99:99" is NOT rejected — `re.match` of the
pattern digit-digit-colon-digit-digit accepts it (no range check), so the
reply is the set-confirmation and a reminder row with time "99:99" is
written, contradicting “rejected with format error, no row written”. -/
theorem remind_9999_counterexample :
    (remind dbEmpty 1 ["99:99"]).2 = RemindMsg.set_confirm
    ∧ (remind dbEmpty 1 ["99:99"]).1.reminders = [⟨1, "99:99"⟩]
    ∧ ¬ ((remind dbEmpty 1 ["99:99"]).2 = RemindMsg.format_err
          ∧ (remind dbEmpty 1 ["99:99"]).1.reminders = dbEmpty.reminders) := by
  decide

/-- Claim C2 (amended): `/remind 99:99` is accepted (the pattern checks
digit shape only, not ranges) and writes a row with time "99:99";
`/remind 08:30` writes a row; `/remind off` deletes the user's row. -/
theorem remind_scenario_amended :
    (remind dbEmpty 1 ["99:99"]).1.reminders = [⟨1, "99:99"⟩]
    ∧ (remind dbEmpty 1 ["99:99"]).2 = RemindMsg.set_confirm
    ∧ (remind dbEmpty 1 ["08:30"]).1.reminders = [⟨1, "08:30"⟩]
    ∧ (remind dbEmpty 1 ["08:30"]).2 = RemindMsg.set_confirm
    ∧ (remind ⟨[], [], [], [⟨1, "08:30"⟩], 1⟩ 1 ["off"]).1.reminders = []
    ∧ (remind ⟨[], [], [], [⟨1, "08:30"⟩], 1⟩ 1 ["off"]).2 = RemindMsg.off_confirm := by
  decide

/-- Claim C3 (counterexample): a write is performed for "08:305" although
that argument is not a strict two-digit:two-digit string — `re.match`
anchors only at the start, so the write-iff-strict-match claim fails. -/
theorem remind_strict_match_counterexample :
    (remind dbEmpty 1 ["08:305"]).1.reminders = [⟨1, "08:305"⟩]
    ∧ specStrictHHMM "08:305" = false
    ∧ ¬ ((remind dbEmpty 1 ["08:305"]).1.reminders ≠ dbEmpty.reminders
          ↔ specStrictHHMM "08:305" = true) := by
  decide

/-- Claim C3 (amended): a reminder row is upserted for the user exactly
when the first argument is not "off" and BEGINS WITH two digits, a colon
and two digits (prefix match; trailing characters allowed); with no
argument the usage line is sent and nothing is written; with a first
argument failing the prefix check the format-error line is sent and
nothing is written. -/
theorem remind_write_iff_leading_hhmm (db : DB) (uid : Nat) (a : String)
    (rest : List String) :
    (remind db uid [] = (db, RemindMsg.usage))
    ∧ (a ≠ "off" → matchHHMM a = true →
        (remind db uid (a :: rest)).1.reminders
          = db.reminders.filter (fun r => r.user_id != uid) ++ [⟨uid, a⟩]
        ∧ (remind db uid (a :: rest)).2 = RemindMsg.set_confirm)
    ∧ (a ≠ "off" → matchHHMM a = false →
        remind db uid (a :: rest) = (db, RemindMsg.format_err)) := by
  refine ⟨rfl, ?_, ?_⟩ <;> intro h1 h2 <;> simp [remind, h1, h2]

/-- Claim C3 witness: the amended characterisation applied at concrete
arguments "08:30" (written) and "abc" (rejected, no write). -/
theorem remind_write_iff_leading_hhmm_witness :
    (remind dbEmpty 1 ["08:30"]).1.reminders = [⟨1, "08:30"⟩]
    ∧ remind dbEmpty 1 ["abc"] = (dbEmpty, RemindMsg.format_err) :=
  ⟨((remind_write_iff_leading_hhmm dbEmpty 1 "08:30" []).2.1 (by decide) (by decide)).1,
   (remind_write_iff_leading_hhmm dbEmpty 1 "abc" []).2.2 (by decide) (by decide)⟩

/-- Claim C4: toggling the same (user, habit) twice on the same date
restores the stored completion value (`fetchone` read-back, absent row
counting as 0) — toggle is its own inverse within a day. -/
theorem toggle_twice_restores_value (db : DB) (uid hid : Nat) (d : String) :
    logValue (toggle_habit (toggle_habit db uid hid d) uid hid d) uid hid d
      = logValue db uid hid d := by
  rw [logValue_toggle, logValue_toggle]
  omega

/-- Claim C5: for a user with no habits, one today-view call seeds exactly
the three defaults "🏃 Sport", "💧 Water", "📚 Study", and a second call
adds nothing; for a user who already has a habit, no seeding occurs. -/
theorem start_seeds_three_defaults_once (db : DB) (uid : Nat) :
    (user_habits db uid = [] →
      (user_habits (start db uid) uid).length = 3
      ∧ (user_habits (start db uid) uid).map Prod.snd
          = ["🏃 Sport", "💧 Water", "📚 Study"]
      ∧ start (start db uid) uid = start db uid)
    ∧ (user_habits db uid ≠ [] → start db uid = db) := by
  constructor
  · intro h
    have h0 : db.habits.filter (fun hh => hh.user_id == uid) = [] :=
      List.map_eq_nil_iff.mp h
    have hseed : user_habits (start db uid) uid
        = [(db.nextId, "🏃 Sport"), (db.nextId + 1, "💧 Water"),
           (db.nextId + 2, "📚 Study")] := by
      simp [start, h, user_habits, List.filter_append, h0]
    refine ⟨by rw [hseed]; rfl, by rw [hseed]; rfl, ?_⟩
    have hne : user_habits (start db uid) uid ≠ [] := by
      rw [hseed]; exact List.cons_ne_nil _ _
    rw [start, if_neg hne]
  · intro h
    rw [start, if_neg h]

/-- Claim C5 witness: the theorem applied to a fresh user (three defaults
appear) and to a user who already owns a habit (state unchanged). -/
theorem start_seeds_three_defaults_once_witness :
    (user_habits (start dbEmpty 1) 1).length = 3
    ∧ start dbOneHabit 1 = dbOneHabit :=
  ⟨((start_seeds_three_defaults_once dbEmpty 1).1 (by decide)).1,
   (start_seeds_three_defaults_once dbOneHabit 1).2 (by decide)⟩

/-- Claim C6: starting from an empty `habit_logs` table, any sequence of
toggle presses leaves at most one log row per (user, habit, date) key,
every stored value is 0 or 1, and a further toggle of any key flips its
read-back value (`1 - old`; an absent row reads 0, so the first toggle of
a key yields 1) — upsert semantics, never a second row per key. -/
theorem habit_logs_upsert_invariant (hs : List HabitRow) (ms : List MoodRow)
    (rs : List ReminderRow) (n : Nat) (ops : List ToggleOp) (uid hid : Nat)
    (d : String) :
    countKey (applyToggles ⟨hs, [], ms, rs, n⟩ ops).habit_logs uid hid d ≤ 1
    ∧ (applyToggles ⟨hs, [], ms, rs, n⟩ ops).habit_logs.all
        (fun r => r.value == 0 || r.value == 1) = true
    ∧ logValue (toggle_habit (applyToggles ⟨hs, [], ms, rs, n⟩ ops) uid hid d)
          uid hid d
        = 1 - logValue (applyToggles ⟨hs, [], ms, rs, n⟩ ops) uid hid d := by
  obtain ⟨hc, hv⟩ := applyToggles_inv ops ⟨hs, [], ms, rs, n⟩
    (by intro u h dd; simp [countKey]) (by intro r hr; simp at hr)
  refine ⟨hc uid hid d, ?_, logValue_toggle _ uid hid d⟩
  rw [List.all_eq_true]
  intro r hr
  rcases hv r hr with h0 | h1 <;> simp [*]

/-- Claim C7: `remove_habit` only filters the `habits` table by the chosen
id — `habit_logs`, `mood` and `reminders` are untouched, so log rows that
reference the deleted habit id all remain (no cascading delete). -/
theorem remove_habit_frame (db : DB) (uid hid : Nat) :
    (remove_habit db uid hid).habit_logs = db.habit_logs
    ∧ (remove_habit db uid hid).mood = db.mood
    ∧ (remove_habit db uid hid).reminders = db.reminders
    ∧ (remove_habit db uid hid).habits
        = db.habits.filter (fun h => h.id != hid) :=
  ⟨rfl, rfl, rfl, rfl⟩

/-- Claim C8: on one poller tick with wall-clock string `now`, the number
of notifications a user receives equals the number of their reminder rows
whose stored time string equals `now` exactly (so: notified iff some row
matches by string equality, exactly once per matching row, never on a
non-matching time). -/
theorem send_reminders_exact_match (db : DB) (now : String) (uid : Nat) :
    ((send_reminders db now).filter (fun u => u == uid)).length
      = (db.reminders.filter (fun r => r.user_id == uid && r.time == now)).length
    ∧ (send_reminders db now).any (fun u => u == uid)
        = db.reminders.any (fun r => r.user_id == uid && r.time == now) :=
  ⟨send_count_aux db.reminders now uid, send_mem_aux db.reminders now uid⟩

/-- Claim C9 (counterexample): the habits table is empty, so habit id 5
does not exist, yet toggling it creates a brand-new `habit_logs` row with
value 1 — not the claimed no-op. -/
theorem toggle_missing_habit_counterexample :
    dbEmpty.habits = []
    ∧ (toggle_habit dbEmpty 1 5 "2024-05-01").habit_logs
        = [⟨1, 5, "2024-05-01", 1⟩]
    ∧ ¬ ((toggle_habit dbEmpty 1 5 "2024-05-01").habit_logs
          = dbEmpty.habit_logs) := by
  decide

/-- Claim C9 (amended): `toggle_habit` never consults the `habits` table;
with a habit id absent from `habits` it behaves exactly as usual — when no
log row exists for (user, habit, date) it INSERTS one with value 1 (and
leaves `habits` unchanged), rather than performing a no-op. -/
theorem toggle_missing_habit_inserts (db : DB) (uid hid : Nat) (d : String)
    (hmiss : ∀ hr ∈ db.habits, hr.id ≠ hid)
    (hnolog : db.habit_logs.find? (keyMatch uid hid d) = none) :
    (toggle_habit db uid hid d).habit_logs = db.habit_logs ++ [⟨uid, hid, d, 1⟩]
    ∧ (toggle_habit db uid hid d).habits = db.habits := by
  simp [toggle_habit, hnolog]

/-- Claim C9 witness: the amended statement at the empty database, habit
id 5, user 1 — a fresh log row appears. -/
theorem toggle_missing_habit_inserts_witness :
    (toggle_habit dbEmpty 1 5 "2024-05-01").habit_logs
        = dbEmpty.habit_logs ++ [⟨1, 5, "2024-05-01", 1⟩]
    ∧ (toggle_habit dbEmpty 1 5 "2024-05-01").habits = dbEmpty.habits :=
  toggle_missing_habit_inserts dbEmpty 1 5 "2024-05-01" (by decide) (by decide)

/-- Claim C10: `remove_habit` and `edit_save` select the target row by
habit id alone — the result is identical whichever user invokes them — and in
a store where user 2 owns habit 7, user 1's remove deletes it and user 1's
edit renames it. -/
theorem remove_edit_ignore_invoking_user :
    (∀ (db : DB) (u v hid : Nat), remove_habit db u hid = remove_habit db v hid)
    ∧ (∀ (db : DB) (u v hid : Nat) (n : String),
        edit_save db u hid n = edit_save db v hid n)
    ∧ dbTwoUsers.habits = [⟨7, 2, "Gym"⟩]
    ∧ (remove_habit dbTwoUsers 1 7).habits = []
    ∧ (edit_save dbTwoUsers 1 7 "pwned").habits = [⟨7, 2, "pwned"⟩] :=
  ⟨fun _ _ _ _ => rfl, fun _ _ _ _ _ => rfl, rfl, by decide, by decide⟩

end HabitTG
